import Mathlib

/-!
Verification of the POAP server routing layer (src/server/src/routes/api.ts)
against its natural-language specification.

The visible source is the Fastify route file; collaborators it imports
(poap-helper, db, the authentication hook) are not part of the visible
source, so their behaviour is modelled from the specification where a
claim depends on it; each such definition carries a doc comment starting
with `Modelled from the spec:`.
-/

set_option maxRecDepth 8192

namespace Poap

/-- Event record, fields as used by the routes (`ev.description`,
`ev.image_url`, `ev.name`, `ev.year`, `ev.start_date`, `ev.end_date`,
`ev.city`, `ev.country`, `ev.event_url`) together with the identification
and signer fields of the spec data model (§3). -/
structure PoapEvent where
  id : Nat
  fancy_id : String
  name : String
  description : String
  city : String
  country : String
  start_date : String
  end_date : String
  event_url : String
  image_url : String
  year : Nat
  signer : Option String
  signer_ip : Option String
deriving DecidableEq, Repr

/-- Claim body of POST /api/claim (required fields of the body schema). -/
structure Claim where
  claimId : String
  eventId : Nat
  proof : String
  claimer : String
  claimerSignature : String
deriving DecidableEq, Repr

/-- Hex-character test used by the `[0-9a-fA-F]` character class. -/
def isHexChar (c : Char) : Bool :=
  (('0' ≤ c) && (c ≤ '9')) || (('a' ≤ c) && (c ≤ 'f')) || (('A' ≤ c) && (c ≤ 'F'))

/-- Semantics of a pattern 0x followed by exactly `n` hex characters,
over the character sequence of the string: the anchored regex together
with the min/max length `n + 2` of the schema. -/
def matchesHexLit (n : Nat) (cs : List Char) : Bool :=
  (cs.length == n + 2) && (cs.take 2 == ['0', 'x']) && (cs.drop 2).all isHexChar

/-- Semantics of the `address` boundary schema (api.ts lines 45-51):
a string of exactly 42 characters matching pattern 0x followed by
40 hex characters. -/
def matchesAddress (s : String) : Bool :=
  matchesHexLit 40 s.data

/-- Semantics of the `signature` boundary schema (api.ts lines 53-59):
a string of exactly 132 characters matching pattern 0x followed by
130 hex characters. -/
def matchesSignature (s : String) : Bool :=
  matchesHexLit 130 s.data

/-- One entry of the metadata `attributes` array. -/
structure MetadataAttribute where
  trait_type : String
  value : String
deriving DecidableEq, Repr

/-- The metadata document built by `buildMetadataJson` (api.ts lines 8-42). -/
structure MetadataDocument where
  description : String
  external_url : String
  home_url : String
  image : String
  image_url : String
  name : String
  year : Nat
  tags : List String
  attributes : List MetadataAttribute
  properties : List String
deriving DecidableEq, Repr

/-- Direct embedding of `buildMetadataJson` (api.ts lines 8-42). -/
def buildMetadataJson (tokenUrl : String) (ev : PoapEvent) : MetadataDocument :=
  { description := ev.description
    external_url := tokenUrl
    home_url := tokenUrl
    image := ev.image_url
    image_url := ev.image_url
    name := ev.name
    year := ev.year
    tags := ["poap", "event"]
    attributes :=
      [ { trait_type := "startDate", value := ev.start_date }
      , { trait_type := "endDate", value := ev.end_date }
      , { trait_type := "city", value := ev.city }
      , { trait_type := "country", value := ev.country }
      , { trait_type := "eventURL", value := ev.event_url } ]
    properties := [] }

/-- Outcome of one POST /api/claim request: HTTP status, error message if
any, how many times `verifyClaim` was invoked, and the list of
`mintToken` invocations with their arguments. -/
structure ClaimOutcome where
  status : Nat
  message : Option String
  verifyCalls : Nat
  mintCalls : List (Nat × String)
deriving DecidableEq, Repr

/-- Handler body of POST /api/claim (api.ts lines 233-242), for a body
that already passed the boundary schema: call `verifyClaim`; on true,
call `mintToken(claim.eventId, claim.claimer)` and answer 204; on false,
answer 400 BadRequest "Invalid Claim" without minting. The external
`verifyClaim` is a parameter. -/
def claimRoute (verifyClaim : Claim → Bool) (c : Claim) : ClaimOutcome :=
  if verifyClaim c then
    { status := 204, message := none, verifyCalls := 1
      mintCalls := [(c.eventId, c.claimer)] }
  else
    { status := 400, message := some "Invalid Claim", verifyCalls := 1
      mintCalls := [] }

/-- POST /api/claim including the boundary validation that Fastify runs
before the handler (body schema, api.ts lines 219-231): a body whose
`claimer` fails the address pattern, whose `proof` or `claimerSignature`
fails the signature pattern, or whose `eventId` is below 1, is rejected
with a 400 validation error before `verifyClaim` or `mintToken` run. -/
def claimEndpoint (verifyClaim : Claim → Bool) (c : Claim) : ClaimOutcome :=
  if matchesAddress c.claimer && matchesSignature c.proof &&
      matchesSignature c.claimerSignature && decide (1 ≤ c.eventId) then
    claimRoute verifyClaim c
  else
    { status := 400, message := some "ValidationError", verifyCalls := 0
      mintCalls := [] }

/-- Outcome of a GET /api/scan/:address request: HTTP status and number
of store lookups performed. -/
structure ScanOutcome where
  status : Nat
  lookupCalls : Nat
deriving DecidableEq, Repr

/-- GET /api/scan/:address (api.ts lines 101-115): the path parameter is
validated against the `address` schema before the handler runs; the
handler performs one `getAllTokens` store lookup. -/
def scanRoute (address : String) : ScanOutcome :=
  if matchesAddress address then { status := 200, lookupCalls := 1 }
  else { status := 400, lookupCalls := 0 }

/-- Reasons a claim can be rejected (spec §4.2). -/
inductive RejectReason where
  | validationError
  | eventNotActive
  | alreadyRedeemed
  | invalidProof
  | invalidClaimerSignature
deriving DecidableEq, Repr

/-- Result of the claim authorizer (spec §4.2). -/
inductive AuthResult where
  | authorized
  | rejected (reason : RejectReason)
deriving DecidableEq, Repr

/-- External facts the authorizer consults: the pure signature recovery
function, the two canonical message bindings, and the redemption-state
predicate of the backing store. -/
structure AuthEnv where
  recover : String → String → String
  bindProof : String → Nat → String → String
  bindClaimer : String → String
  isRedeemed : String → Bool

/-- Modelled from the spec: `verifyClaim` lives in
src/server/src/poap-helper.ts, which is not part of the visible source;
spec §4.2 gives its steps, in order and short-circuiting: structural
validation, event-state check (`signer` non-null), redemption-state
check, proof check, claimer-consent check. -/
def authorize (env : AuthEnv) (c : Claim) (ev : PoapEvent) : AuthResult :=
  if !((c.eventId == ev.id) && matchesAddress c.claimer &&
       matchesSignature c.proof && matchesSignature c.claimerSignature) then
    .rejected .validationError
  else
    match ev.signer with
    | none => .rejected .eventNotActive
    | some sgn =>
      if env.isRedeemed c.claimId then .rejected .alreadyRedeemed
      else if env.recover (env.bindProof c.claimId c.eventId c.claimer) c.proof != sgn then
        .rejected .invalidProof
      else if env.recover (env.bindClaimer c.claimId) c.claimerSignature != c.claimer then
        .rejected .invalidClaimerSignature
      else .authorized

/-- The boolean `verifyClaim` the route consumes, derived from the
authorizer: true exactly when the claim is authorized. -/
def verifyClaim (env : AuthEnv) (ev : PoapEvent) (c : Claim) : Bool :=
  authorize env c ev == .authorized

/-- Modelled from the spec: the redemption-state check and the creation
of the RedemptionRecord form one atomic check-and-set (spec §5); the
backing store of poap-helper/db is not part of the visible source. The
state is the set of redeemed claimIds; the step returns whether this
request observed the claim as unredeemed (and hence proceeds to mint). -/
def redeemStep (redeemed : List String) (cid : String) : Bool × List String :=
  if cid ∈ redeemed then (false, redeemed) else (true, cid :: redeemed)

/-- State after running a serialization of concurrent redemption
requests (atomicity of `redeemStep` makes every interleaving a
serialization). -/
def redeemedAfter (redeemed : List String) : List String → List String
  | [] => redeemed
  | cid :: rest => redeemedAfter (redeemStep redeemed cid).2 rest

/-- Number of ledger mint calls issued for claimId `cid` while running a
serialization of redemption requests: a request mints exactly when its
atomic check-and-set observed the claim as unredeemed. -/
def mintsFor (cid : String) (redeemed : List String) : List String → Nat
  | [] => 0
  | c :: rest =>
    (if (c == cid) && (redeemStep redeemed c).1 then 1 else 0) +
      mintsFor cid (redeemStep redeemed c).2 rest

/-- Per-address outcome of a batch mint (spec §3, §4.3). -/
structure MintOutcome where
  address : String
  success : Bool
  detail : String
deriving DecidableEq, Repr

/-- Modelled from the spec: `mintTokens` lives in
src/server/src/poap-helper.ts, which is not part of the visible source;
spec §4.3: one sequenced ledger submission per recipient, one outcome
per input address in input order, a failure for one address never
aborting the others. The ledger client is a parameter classifying each
submission as success/failure with a txRef or errorKind. -/
def mintTokens (ledger : Nat → String → Bool × String) (eventId : Nat)
    (recipients : List String) : List MintOutcome :=
  recipients.map (fun a =>
    { address := a, success := (ledger eventId a).1, detail := (ledger eventId a).2 })

/-- Token info returned by GET /api/token/:tokenId. -/
structure TokenInfo where
  tokenId : Nat
  eventId : Nat
  owner : String
deriving DecidableEq, Repr

/-- HTTP result of a route returning a body of type α. -/
inductive RouteResult (α : Type) where
  | ok (status : Nat) (body : α)
  | err (status : Nat) (message : String)
deriving DecidableEq, Repr

/-- GET /api/token/:tokenId (api.ts lines 117-131) composed with the
lookup it delegates to. Modelled from the spec: `getTokenInfo` lives in
src/server/src/poap-helper.ts, which is not part of the visible source;
per the interface table (§6) an unknown token fails with 404 and a known
one yields its info with 200. -/
def getTokenRoute (getTokenInfo : Nat → Option TokenInfo) (tokenId : Nat) :
    RouteResult TokenInfo :=
  match getTokenInfo tokenId with
  | some info => .ok 200 info
  | none => .err 404 "Not Found"

/-- Token URL embedded in the metadata document (api.ts line 66): note
the hardcoded host http://localhost:3000. -/
def tokenUrlFor (eventId : Nat) (tokenId : String) : String :=
  "http://localhost:3000/metadata/" ++ toString eventId ++ "/" ++ tokenId

/-- GET /metadata/:eventId/:tokenId (api.ts lines 61-68): look the event
up; 404 "Invalid Event" when unknown, otherwise 200 with the metadata
document built over the token URL. The tokenId path segment is used only
to form the URL and is never checked for existence. -/
def metadataRoute (getEvent : Nat → Option PoapEvent) (eventId : Nat)
    (tokenId : String) : RouteResult MetadataDocument :=
  match getEvent eventId with
  | none => .err 404 "Invalid Event"
  | some ev => .ok 200 (buildMetadataJson (tokenUrlFor eventId tokenId) ev)

/-- Body of PUT /api/events/:fancyid (api.ts lines 164-173). -/
structure EventPatch where
  signer : Option String
  signer_ip : Option String
  event_url : String
  image_url : String
deriving DecidableEq, Repr

/-- Modelled from the spec: `updateEvent` lives in src/server/src/db.ts,
which is not part of the visible source; it stores exactly the four
fields the handler passes (signer, signer_ip, event_url, image_url) on
the event addressed by its fancy id and reports whether such an event
exists. The store is the list of event records. -/
def updateEvent (fancyid : String) (body : EventPatch) (store : List PoapEvent) :
    Bool × List PoapEvent :=
  if store.any (fun ev => ev.fancy_id == fancyid) then
    (true, store.map (fun ev =>
      if ev.fancy_id == fancyid then
        { ev with signer := body.signer, signer_ip := body.signer_ip,
                  event_url := body.event_url, image_url := body.image_url }
      else ev))
  else (false, store)

/-- Outcome of a PUT /api/events/:fancyid request: HTTP status, number of
`updateEvent` invocations, and the resulting store. -/
structure PutEventOutcome where
  status : Nat
  updateCalls : Nat
  store : List PoapEvent
deriving DecidableEq, Repr

/-- PUT /api/events/:fancyid (api.ts lines 156-189). The route registers
`fastify.authenticate` as preValidation, so an unprivileged request is
rejected before the handler body; the authentication hook itself is not
part of the visible source and, per spec §1, the core consumes only the
boolean privileged fact. With the credential accepted, the handler calls
`updateEvent` with the four body fields and answers 204 on success or
404 "Invalid event" when the fancy id is unknown. -/
def putEventRoute (isPrivileged : Bool) (fancyid : String) (body : EventPatch)
    (store : List PoapEvent) : PutEventOutcome :=
  if !isPrivileged then
    { status := 401, updateCalls := 0, store := store }
  else
    let r := updateEvent fancyid body store
    if r.1 then { status := 204, updateCalls := 1, store := r.2 }
    else { status := 404, updateCalls := 1, store := r.2 }

/-! Concrete sample data used by witnesses. -/

/-- A well-formed address literal: 0x followed by 40 hex characters. -/
def addrA : String := "0xaaaaaaaaaaaaaaaaaaaaaaaaaaaaaaaaaaaaaaaa"

/-- A well-formed signature literal: 0x followed by 130 hex characters. -/
def sigA : String :=
  "0xbbbbbbbbbbbbbbbbbbbbbbbbbbbbbbbbbbbbbbbbbbbbbbbbbbbbbbbbbbbbbbbbbbbbbbbbbbbbbbbbbbbbbbbbbbbbbbbbbbbbbbbbbbbbbbbbbbbbbbbbbbbbbbbbbb"

/-- A sample event record. -/
def sampleEvent : PoapEvent :=
  { id := 1, fancy_id := "devcon6", name := "Devcon 6", description := "d",
    city := "Bogota", country := "CO", start_date := "2022-10-11",
    end_date := "2022-10-14", event_url := "https://devcon.org",
    image_url := "https://devcon.org/logo.png", year := 2022,
    signer := none, signer_ip := none }

/-- A sample structurally well-formed claim for `sampleEvent`. -/
def sampleClaim : Claim :=
  { claimId := "c1", eventId := 1, proof := sigA, claimer := addrA,
    claimerSignature := sigA }

/-- A sample token record. -/
def sampleToken : TokenInfo := { tokenId := 5, eventId := 1, owner := addrA }

/-- An authorizer environment whose recovery function never matches and
in which nothing is redeemed. -/
def envFresh : AuthEnv :=
  { recover := fun _ _ => "", bindProof := fun _ _ _ => "",
    bindClaimer := fun _ => "", isRedeemed := fun _ => false }

/-- The same environment with every claimId already redeemed. -/
def envRedeemed : AuthEnv := { envFresh with isRedeemed := fun _ => true }

/-- The sample event activated for claiming. -/
def sampleEventActive : PoapEvent := { sampleEvent with signer := some addrA }

/-- A second sample event, untouched by updates addressed elsewhere. -/
def otherEvent : PoapEvent := { sampleEvent with id := 2, fancy_id := "other" }

/-- A sample PUT body. -/
def samplePatch : EventPatch :=
  { signer := some addrA
    signer_ip := some "1.2.3.4"
    event_url := "e2"
    image_url := "i2" }

/-- The sample event after applying `samplePatch`. -/
def sampleEventUpdated : PoapEvent :=
  { sampleEvent with
      signer := some addrA
      signer_ip := some "1.2.3.4"
      event_url := "e2"
      image_url := "i2" }

/-! Theorems. -/

/-- C1: for every POST /api/claim request whose body passes the boundary
schema, if `verifyClaim` returns false the response is 400 with message
"Invalid Claim" and `mintToken` is never called; if `verifyClaim`
returns true then `mintToken` is called exactly once with arguments
(claim.eventId, claim.claimer) and the response status is 204. -/
theorem claimRoute_verify_gates_mint (v : Claim → Bool) (c : Claim) :
    (v c = false →
      claimRoute v c =
        { status := 400, message := some "Invalid Claim", verifyCalls := 1,
          mintCalls := [] }) ∧
    (v c = true →
      claimRoute v c =
        { status := 204, message := none, verifyCalls := 1,
          mintCalls := [(c.eventId, c.claimer)] }) := by
  refine ⟨fun h => ?_, fun h => ?_⟩ <;> simp [claimRoute, h]

/-- Witness for C1 at a concrete claim, once with a rejecting and once
with an accepting verifier. -/
theorem claimRoute_verify_gates_mint_witness :
    claimRoute (fun _ => false) sampleClaim =
      { status := 400, message := some "Invalid Claim", verifyCalls := 1,
        mintCalls := [] } ∧
    claimRoute (fun _ => true) sampleClaim =
      { status := 204, message := none, verifyCalls := 1,
        mintCalls := [(1, addrA)] } :=
  ⟨(claimRoute_verify_gates_mint (fun _ => false) sampleClaim).1 rfl,
   (claimRoute_verify_gates_mint (fun _ => true) sampleClaim).2 rfl⟩

/-- C3: any two claims rejected by the authorizer — for whatever reasons,
in particular any two of event-not-active, invalid proof, invalid claimer
signature, already redeemed — produce identical external responses: the
generic 400 "Invalid Claim" with no mint, revealing nothing about which
check failed. -/
theorem claim_rejections_indistinguishable (env1 env2 : AuthEnv)
    (c1 c2 : Claim) (ev1 ev2 : PoapEvent) (r1 r2 : RejectReason)
    (h1 : authorize env1 c1 ev1 = .rejected r1)
    (h2 : authorize env2 c2 ev2 = .rejected r2) :
    claimRoute (verifyClaim env1 ev1) c1 = claimRoute (verifyClaim env2 ev2) c2 ∧
    claimRoute (verifyClaim env1 ev1) c1 =
      { status := 400, message := some "Invalid Claim", verifyCalls := 1,
        mintCalls := [] } := by
  have e1 : verifyClaim env1 ev1 c1 = false := by simp [verifyClaim, h1]
  have e2 : verifyClaim env2 ev2 c2 = false := by simp [verifyClaim, h2]
  simp [claimRoute, e1, e2]

/-- Witness for C3: one claim rejected as event-not-active and one
rejected as already-redeemed get the same generic response. -/
theorem claim_rejections_indistinguishable_witness :
    claimRoute (verifyClaim envFresh sampleEvent) sampleClaim =
      claimRoute (verifyClaim envRedeemed sampleEventActive) sampleClaim ∧
    claimRoute (verifyClaim envFresh sampleEvent) sampleClaim =
      { status := 400, message := some "Invalid Claim", verifyCalls := 1,
        mintCalls := [] } :=
  claim_rejections_indistinguishable envFresh envRedeemed sampleClaim sampleClaim
    sampleEvent sampleEventActive .eventNotActive .alreadyRedeemed
    (by decide) (by decide)

/-- C6 counterexample: the fifth attribute of the metadata document is
named "eventURL", not "eventUrL" as the claim states. -/
theorem buildMetadata_attr_names_counterexample :
    ¬ ((buildMetadataJson "u" sampleEvent).attributes.map
        MetadataAttribute.trait_type =
      ["startDate", "endDate", "city", "country", "eventUrL"]) := by
  decide

/-- C6 (amended): for every event record the metadata builder produces
exactly the fixed schema — description, external and home URL both set
to the canonical token URL, both image references, name, year, the fixed
tag set, an empty properties list, and an attribute list of exactly the
five attributes startDate, endDate, city, country, eventURL of the
event, in that order. -/
theorem buildMetadata_fixed_schema (u : String) (ev : PoapEvent) :
    (buildMetadataJson u ev).description = ev.description ∧
    (buildMetadataJson u ev).external_url = u ∧
    (buildMetadataJson u ev).home_url = u ∧
    (buildMetadataJson u ev).image = ev.image_url ∧
    (buildMetadataJson u ev).image_url = ev.image_url ∧
    (buildMetadataJson u ev).name = ev.name ∧
    (buildMetadataJson u ev).year = ev.year ∧
    (buildMetadataJson u ev).tags = ["poap", "event"] ∧
    (buildMetadataJson u ev).properties = [] ∧
    (buildMetadataJson u ev).attributes =
      [ { trait_type := "startDate", value := ev.start_date }
      , { trait_type := "endDate", value := ev.end_date }
      , { trait_type := "city", value := ev.city }
      , { trait_type := "country", value := ev.country }
      , { trait_type := "eventURL", value := ev.event_url } ] :=
  ⟨rfl, rfl, rfl, rfl, rfl, rfl, rfl, rfl, rfl, rfl⟩

/-- C7: GET /api/token/:tokenId with an integer tokenId answers 200 with
the token info when the token exists and fails with 404 when the token
is unknown. -/
theorem getTokenRoute_found_or_404 (g : Nat → Option TokenInfo) (tid : Nat) :
    (∀ info, g tid = some info → getTokenRoute g tid = .ok 200 info) ∧
    (g tid = none → getTokenRoute g tid = .err 404 "Not Found") := by
  refine ⟨fun info h => ?_, fun h => ?_⟩ <;> simp [getTokenRoute, h]

/-- Witness for C7: a store holding only token 5, queried at 5 and 7. -/
theorem getTokenRoute_found_or_404_witness :
    getTokenRoute (fun n => if n == 5 then some sampleToken else none) 5 =
      .ok 200 sampleToken ∧
    getTokenRoute (fun n => if n == 5 then some sampleToken else none) 7 =
      .err 404 "Not Found" :=
  ⟨(getTokenRoute_found_or_404 (fun n => if n == 5 then some sampleToken else none) 5).1
      sampleToken rfl,
   (getTokenRoute_found_or_404 (fun n => if n == 5 then some sampleToken else none) 7).2
      rfl⟩

/-- C9: GET /metadata/:eventId/:tokenId never checks that the tokenId
exists: for every tokenId whatsoever, if the event exists the response
is 200 with a metadata document; the embedded token URL hardcodes the
host http://localhost:3000; and two requests for different tokenIds of
the same event differ only in external_url and home_url. -/
theorem metadataRoute_tokenId_unchecked (g : Nat → Option PoapEvent)
    (eid : Nat) (ev : PoapEvent) (t1 t2 : String) (h : g eid = some ev) :
    metadataRoute g eid t1 = .ok 200 (buildMetadataJson (tokenUrlFor eid t1) ev) ∧
    (∃ rest, tokenUrlFor eid t1 = "http://localhost:3000/metadata/" ++ rest) ∧
    (buildMetadataJson (tokenUrlFor eid t1) ev).external_url = tokenUrlFor eid t1 ∧
    (buildMetadataJson (tokenUrlFor eid t1) ev).home_url = tokenUrlFor eid t1 ∧
    (buildMetadataJson (tokenUrlFor eid t1) ev).description =
      (buildMetadataJson (tokenUrlFor eid t2) ev).description ∧
    (buildMetadataJson (tokenUrlFor eid t1) ev).image =
      (buildMetadataJson (tokenUrlFor eid t2) ev).image ∧
    (buildMetadataJson (tokenUrlFor eid t1) ev).image_url =
      (buildMetadataJson (tokenUrlFor eid t2) ev).image_url ∧
    (buildMetadataJson (tokenUrlFor eid t1) ev).name =
      (buildMetadataJson (tokenUrlFor eid t2) ev).name ∧
    (buildMetadataJson (tokenUrlFor eid t1) ev).year =
      (buildMetadataJson (tokenUrlFor eid t2) ev).year ∧
    (buildMetadataJson (tokenUrlFor eid t1) ev).tags =
      (buildMetadataJson (tokenUrlFor eid t2) ev).tags ∧
    (buildMetadataJson (tokenUrlFor eid t1) ev).attributes =
      (buildMetadataJson (tokenUrlFor eid t2) ev).attributes ∧
    (buildMetadataJson (tokenUrlFor eid t1) ev).properties =
      (buildMetadataJson (tokenUrlFor eid t2) ev).properties := by
  refine ⟨by simp [metadataRoute, h],
    ⟨toString eid ++ "/" ++ t1, by simp [tokenUrlFor, String.append_assoc]⟩,
    rfl, rfl, rfl, rfl, rfl, rfl, rfl, rfl, rfl, rfl⟩

/-- Witness for C9 at event 1, token ids "7" and "xyz". -/
theorem metadataRoute_tokenId_unchecked_witness :
    metadataRoute (fun n => if n == 1 then some sampleEvent else none) 1 "7" =
      .ok 200 (buildMetadataJson (tokenUrlFor 1 "7") sampleEvent) ∧
    (buildMetadataJson (tokenUrlFor 1 "7") sampleEvent).attributes =
      (buildMetadataJson (tokenUrlFor 1 "xyz") sampleEvent).attributes := by
  have h := metadataRoute_tokenId_unchecked
    (fun n => if n == 1 then some sampleEvent else none) 1 sampleEvent "7" "xyz" rfl
  exact ⟨h.1, h.2.2.2.2.2.2.2.2.2.2.1⟩

/-- C4: a batch mint over a non-empty sequence of N recipients yields
exactly N outcomes, one per input address in input order; position i of
the output is determined by the address at position i alone, so a
failure for one address never aborts the processing of the others. -/
theorem mintTokens_one_outcome_per_address (ledger : Nat → String → Bool × String)
    (eid : Nat) (rs : List String) (hne : rs ≠ []) :
    (mintTokens ledger eid rs).length = rs.length ∧
    (∀ i : Nat, (mintTokens ledger eid rs)[i]? =
      rs[i]?.map (fun a =>
        { address := a, success := (ledger eid a).1, detail := (ledger eid a).2 })) ∧
    (∀ (rs2 : List String) (i : Nat) (a : String),
      rs[i]? = some a → rs2[i]? = some a →
      (mintTokens ledger eid rs)[i]? = (mintTokens ledger eid rs2)[i]?) := by
  refine ⟨by simp [mintTokens], fun i => by simp [mintTokens, List.getElem?_map],
    fun rs2 i a h1 h2 => ?_⟩
  simp [mintTokens, List.getElem?_map, h1, h2]

/-- Witness for C4: a two-address batch where the second address fails
still yields two outcomes, the second marked failed. -/
theorem mintTokens_one_outcome_per_address_witness :
    (mintTokens (fun _ a => (matchesAddress a, "r")) 1 [addrA, "bad"]).length = 2 ∧
    (mintTokens (fun _ a => (matchesAddress a, "r")) 1 [addrA, "bad"])[0]? =
      some { address := addrA, success := true, detail := "r" } ∧
    (mintTokens (fun _ a => (matchesAddress a, "r")) 1 [addrA, "bad"])[1]? =
      some { address := "bad", success := false, detail := "r" } := by
  have h := mintTokens_one_outcome_per_address
    (fun _ a => (matchesAddress a, "r")) 1 [addrA, "bad"] (by decide)
  exact ⟨h.1.trans rfl, (h.2.1 0).trans (by decide), (h.2.1 1).trans (by decide)⟩

/-- C8: a PUT /api/events/:fancyid request without the privileged
credential is rejected with 401 before the handler body runs, with no
`updateEvent` invocation and the store unchanged; with the credential,
the response is 204 on success and 404 (store unchanged) when the fancy
id is unknown. -/
theorem putEventRoute_auth_and_update (priv : Bool) (fid : String)
    (b : EventPatch) (store : List PoapEvent) :
    (priv = false →
      putEventRoute priv fid b store =
        { status := 401, updateCalls := 0, store := store }) ∧
    (priv = true → store.any (fun ev => ev.fancy_id == fid) = true →
      (putEventRoute priv fid b store).status = 204 ∧
      (putEventRoute priv fid b store).updateCalls = 1) ∧
    (priv = true → store.any (fun ev => ev.fancy_id == fid) = false →
      putEventRoute priv fid b store =
        { status := 404, updateCalls := 1, store := store }) := by
  refine ⟨fun h => by simp [putEventRoute, h], fun h hm => ?_, fun h hm => ?_⟩
  · simp [putEventRoute, updateEvent, h, hm]
  · simp [putEventRoute, updateEvent, h, hm]

/-- Witness for C8: the sample store probed without the credential, and
with it at a known and at an unknown fancy id. -/
theorem putEventRoute_auth_and_update_witness :
    putEventRoute false "devcon6"
        { signer := some addrA, signer_ip := none, event_url := "e", image_url := "i" }
        [sampleEvent] =
      { status := 401, updateCalls := 0, store := [sampleEvent] } ∧
    (putEventRoute true "devcon6"
        { signer := some addrA, signer_ip := none, event_url := "e", image_url := "i" }
        [sampleEvent]).status = 204 ∧
    putEventRoute true "nope"
        { signer := some addrA, signer_ip := none, event_url := "e", image_url := "i" }
        [sampleEvent] =
      { status := 404, updateCalls := 1, store := [sampleEvent] } := by
  have h := putEventRoute_auth_and_update false "devcon6"
    { signer := some addrA, signer_ip := none, event_url := "e", image_url := "i" }
    [sampleEvent]
  have h2 := putEventRoute_auth_and_update true "devcon6"
    { signer := some addrA, signer_ip := none, event_url := "e", image_url := "i" }
    [sampleEvent]
  have h3 := putEventRoute_auth_and_update true "nope"
    { signer := some addrA, signer_ip := none, event_url := "e", image_url := "i" }
    [sampleEvent]
  exact ⟨h.1 rfl, (h2.2.1 rfl (by decide)).1, h3.2.2 rfl (by decide)⟩

/-- C10: a successful PUT /api/events/:fancyid answers 204 with the
updated store; in that store the addressed event has exactly the four
fields signer, signer_ip, event_url, image_url replaced by the body
values — every other field of it is kept by the record update — and
every event with a different fancy id is completely unchanged, with the
store keeping its length and order. -/
theorem updateEvent_frame (fid : String) (b : EventPatch)
    (store store' : List PoapEvent)
    (h : updateEvent fid b store = (true, store')) :
    putEventRoute true fid b store =
      { status := 204, updateCalls := 1, store := store' } ∧
    store'.length = store.length ∧
    ∀ (i : Nat) (hi : i < store.length),
      store'[i]? = some (
        if (store.get ⟨i, hi⟩).fancy_id == fid then
          { store.get ⟨i, hi⟩ with
              signer := b.signer
              signer_ip := b.signer_ip
              event_url := b.event_url
              image_url := b.image_url }
        else store.get ⟨i, hi⟩) := by
  by_cases hany : store.any (fun ev => ev.fancy_id == fid) = true
  · have hmap : store' = store.map (fun ev =>
        if ev.fancy_id == fid then
          { ev with
              signer := b.signer
              signer_ip := b.signer_ip
              event_url := b.event_url
              image_url := b.image_url }
        else ev) := by
      unfold updateEvent at h
      rw [if_pos hany] at h
      injection h with _ h2
      exact h2.symm
    subst hmap
    refine ⟨by simp [putEventRoute, updateEvent, hany], by simp, fun i hi => ?_⟩
    simp [List.getElem?_map, List.getElem?_eq_getElem hi]
  · exfalso
    simp [updateEvent, hany] at h

/-- Witness for C10: updating "devcon6" in a two-event store rewrites
the four fields of the first event and leaves the second untouched. -/
theorem updateEvent_frame_witness :
    putEventRoute true "devcon6" samplePatch [sampleEvent, otherEvent] =
      { status := 204, updateCalls := 1
        store := [sampleEventUpdated, otherEvent] } ∧
    [sampleEventUpdated, otherEvent][1]? = some otherEvent := by
  have h := updateEvent_frame "devcon6" samplePatch [sampleEvent, otherEvent]
    [sampleEventUpdated, otherEvent] (by decide)
  exact ⟨h.1, (h.2.2 1 (by decide)).trans (by decide)⟩

/-! Redemption state machine (C2). -/

/-- Unfolding of `redeemStep` on an already redeemed claimId. -/
theorem redeemStep_mem {s0 : List String} {cid : String} (h : cid ∈ s0) :
    redeemStep s0 cid = (false, s0) := by
  simp [redeemStep, h]

/-- Unfolding of `redeemStep` on an unredeemed claimId. -/
theorem redeemStep_not_mem {s0 : List String} {cid : String} (h : cid ∉ s0) :
    redeemStep s0 cid = (true, cid :: s0) := by
  simp [redeemStep, h]

/-- A claimId already redeemed is never minted again, whatever requests
follow. -/
theorem mintsFor_of_mem (cid : String) :
    ∀ (reqs s0 : List String), cid ∈ s0 → mintsFor cid s0 reqs = 0 := by
  intro reqs
  induction reqs with
  | nil => intro s0 _; rfl
  | cons c rest ih =>
    intro s0 hmem
    by_cases hc : c ∈ s0
    · rw [mintsFor, redeemStep_mem hc]
      simp [ih s0 hmem]
    · have hne : (c == cid) = false :=
        beq_eq_false_iff_ne.mpr fun h => hc (h ▸ hmem)
      rw [mintsFor, redeemStep_not_mem hc]
      simp [hne, ih (c :: s0) (List.mem_cons_of_mem c hmem)]

/-- For an unredeemed claimId, the number of mints over a serialization
of requests is one when some request targets it and zero otherwise. -/
theorem mintsFor_of_not_mem (cid : String) :
    ∀ (reqs s0 : List String), cid ∉ s0 →
      mintsFor cid s0 reqs = if cid ∈ reqs then 1 else 0 := by
  intro reqs
  induction reqs with
  | nil => intro s0 _; simp [mintsFor]
  | cons c rest ih =>
    intro s0 h
    by_cases hc : c = cid
    · subst hc
      rw [mintsFor, redeemStep_not_mem h]
      have hz := mintsFor_of_mem c rest (c :: s0) (List.mem_cons_self c s0)
      simp [hz]
    · have hne : (c == cid) = false := beq_eq_false_iff_ne.mpr hc
      have hcc : ¬cid = c := fun h2 => hc h2.symm
      by_cases hcs : c ∈ s0
      · rw [mintsFor, redeemStep_mem hcs]
        rw [ih s0 h]
        simp [hne, List.mem_cons, hcc]
      · rw [mintsFor, redeemStep_not_mem hcs]
        have h2 : cid ∉ c :: s0 := by simp [List.mem_cons, hcc, h]
        rw [ih (c :: s0) h2]
        simp [hne, List.mem_cons, hcc]

/-- Redemption is irreversible: a redeemed claimId stays redeemed across
any further requests. -/
theorem mem_redeemedAfter (cid : String) :
    ∀ (reqs s0 : List String), cid ∈ s0 → cid ∈ redeemedAfter s0 reqs := by
  intro reqs
  induction reqs with
  | nil => intro s0 h; exact h
  | cons c rest ih =>
    intro s0 h
    by_cases hc : c ∈ s0
    · rw [redeemedAfter, redeemStep_mem hc]; exact ih s0 h
    · rw [redeemedAfter, redeemStep_not_mem hc]
      exact ih (c :: s0) (List.mem_cons_of_mem c h)

/-- C2: under the atomic check-and-set, any serialization of concurrent
redemption requests mints a claimId at most once; a claimId already
redeemed is never minted and stays redeemed (irreversibility); and for
an unredeemed claimId targeted by at least one concurrent request —
in particular by N ≥ 2 identical requests — exactly one request
observes it unredeemed and mints, the others observing it as already
redeemed. -/
theorem redemption_at_most_once (s0 : List String) (cid : String)
    (reqs : List String) :
    mintsFor cid s0 reqs ≤ 1 ∧
    (cid ∈ s0 → mintsFor cid s0 reqs = 0) ∧
    (cid ∉ s0 → cid ∈ reqs → mintsFor cid s0 reqs = 1) ∧
    (cid ∈ s0 → cid ∈ redeemedAfter s0 reqs) := by
  refine ⟨?_, fun h => mintsFor_of_mem cid reqs s0 h,
    fun h hm => by rw [mintsFor_of_not_mem cid reqs s0 h]; simp [hm],
    fun h => mem_redeemedAfter cid reqs s0 h⟩
  by_cases h : cid ∈ s0
  · rw [mintsFor_of_mem cid reqs s0 h]; exact Nat.zero_le 1
  · rw [mintsFor_of_not_mem cid reqs s0 h]
    split <;> simp

/-- Witness for C2: three concurrent identical requests on a fresh
claimId mint exactly once; a redeemed claimId mints zero times and stays
redeemed. -/
theorem redemption_at_most_once_witness :
    mintsFor "c1" [] ["c1", "c1", "c1"] = 1 ∧
    mintsFor "c1" ["c1"] ["c1"] = 0 ∧
    "c1" ∈ redeemedAfter ["c1"] ["c2"] := by
  have h1 := redemption_at_most_once [] "c1" ["c1", "c1", "c1"]
  have h2 := redemption_at_most_once ["c1"] "c1" ["c1"]
  have h3 := redemption_at_most_once ["c1"] "c1" ["c2"]
  exact ⟨h1.2.2.1 (by decide) (by decide), h2.2.1 (by decide),
    h3.2.2.2 (by decide)⟩

/-- Characterization of the hex-literal pattern: total length, the 0x
prefix, and hex-only remaining characters. -/
theorem matchesHexLit_iff (n : Nat) (cs : List Char) :
    matchesHexLit n cs = true ↔
      cs.length = n + 2 ∧ cs.take 2 = ['0', 'x'] ∧
        ∀ c ∈ cs.drop 2, isHexChar c = true := by
  simp [matchesHexLit, List.all_eq_true, and_assoc]

/-- C5: a string is accepted by the address (resp. signature) boundary
schema exactly when it has total length 42 (resp. 132), prefix 0x, and
only hex characters after the prefix — so any string of wrong length,
wrong prefix, or containing a non-hex character is rejected; a body
failing these patterns is answered with a validation error with
`verifyClaim` and `mintToken` never running, a body that reaches the
business logic has all three patterns satisfied, and a malformed scan
address is rejected before the store lookup. -/
theorem boundary_patterns_enforced (s : String) :
    (matchesAddress s = true ↔
      s.data.length = 42 ∧ s.data.take 2 = ['0', 'x'] ∧
        ∀ c ∈ s.data.drop 2, isHexChar c = true) ∧
    (matchesSignature s = true ↔
      s.data.length = 132 ∧ s.data.take 2 = ['0', 'x'] ∧
        ∀ c ∈ s.data.drop 2, isHexChar c = true) ∧
    (∀ (v : Claim → Bool) (c : Claim),
      matchesAddress c.claimer = false ∨ matchesSignature c.proof = false ∨
        matchesSignature c.claimerSignature = false →
      claimEndpoint v c =
        { status := 400, message := some "ValidationError", verifyCalls := 0,
          mintCalls := [] }) ∧
    (∀ (v : Claim → Bool) (c : Claim),
      (claimEndpoint v c).verifyCalls ≠ 0 ∨ (claimEndpoint v c).mintCalls ≠ [] →
      matchesAddress c.claimer = true ∧ matchesSignature c.proof = true ∧
        matchesSignature c.claimerSignature = true) ∧
    (matchesAddress s = false → scanRoute s = { status := 400, lookupCalls := 0 }) := by
  refine ⟨matchesHexLit_iff 40 s.data, matchesHexLit_iff 130 s.data,
    fun v c h => ?_, fun v c h => ?_, fun h => by simp [scanRoute, h]⟩
  · rcases h with h | h | h <;> simp [claimEndpoint, h]
  · by_cases hc : (matchesAddress c.claimer && matchesSignature c.proof &&
        matchesSignature c.claimerSignature && decide (1 ≤ c.eventId)) = true
    · have hs := hc
      simp only [Bool.and_eq_true] at hs
      exact ⟨hs.1.1.1, hs.1.1.2, hs.1.2⟩
    · exfalso
      have he : claimEndpoint v c =
          { status := 400, message := some "ValidationError", verifyCalls := 0,
            mintCalls := [] } := by
        rw [claimEndpoint, if_neg hc]
      rcases h with h | h <;> rw [he] at h <;> exact h rfl

/-- Witness for C5: a well-formed address is accepted; a malformed
claimer short-circuits POST /api/claim before any business call; a
malformed scan address short-circuits GET /api/scan. -/
theorem boundary_patterns_enforced_witness :
    matchesAddress addrA = true ∧
    claimEndpoint (fun _ => true) { sampleClaim with claimer := "0xzz" } =
      { status := 400, message := some "ValidationError", verifyCalls := 0,
        mintCalls := [] } ∧
    scanRoute "0xzz" = { status := 400, lookupCalls := 0 } := by
  have h1 := boundary_patterns_enforced addrA
  have h2 := boundary_patterns_enforced "0xzz"
  exact ⟨h1.1.mpr (by decide),
    h2.2.2.1 (fun _ => true) { sampleClaim with claimer := "0xzz" }
      (Or.inl (by decide)),
    h2.2.2.2.2 (by decide)⟩

end Poap
